import Mathlib

/-!
Shallow embedding of `src/python/analysis_visualizations.py`
(Food Delivery Marketplace — Business Analysis & Visualizations).

The script loads a CSV of orders into a pandas DataFrame, derives columns
(order month, contribution margin, profitability label, discount band,
order band) and computes six grouped summary tables, one per chart.

Modelling choices:
  * monetary columns are embedded as `ℚ` (the claims speak of exact
    values up to floating-point tolerance);
  * a DataFrame is a `List` of row records, in file order;
  * `df.groupby(k)` is embedded with pandas' default `sort=True`
    semantics: the group keys are the distinct key values sorted
    ascending, each group holding its rows in input order;
  * `Series.mean` is sum divided by length (groups are non-empty
    wherever it is applied);
  * `DataFrame.reindex` onto a label list yields `Option`-valued cells,
    `none` standing for the NaN row of an absent label;
  * `nlargest(n, col)` (default `keep='first'`) is a stable descending
    sort by `col` followed by `take n`, which is exactly its documented
    tie behaviour.
-/

/-- `order_date` parsed from `order_date_and_time` (`pd.to_datetime`).
Only the calendar fields the script consumes are carried. -/
structure Timestamp where
  year : Nat
  month : Nat
  day : Nat
  hour : Nat
  minute : Nat
deriving DecidableEq, Repr

/-- One row of `../data/food_orders.csv` after column-name
normalisation (strip, lowercase, spaces and slashes to underscores). -/
structure Order where
  order_id : Nat
  restaurant_id : Nat
  payment_method : String
  order_ts : Timestamp
  order_value : ℚ
  commission_fee : ℚ
  delivery_fee : ℚ
  payment_processing_fee : ℚ
  discounts_and_offers : ℚ
  refunds_chargebacks : ℚ
deriving DecidableEq, Repr

/-- `df["order_month"] = df["order_date"].dt.to_period("M").astype(str)`:
the `"YYYY-MM"` month key of a timestamp. -/
def monthKey (t : Timestamp) : String :=
  toString t.year ++ "-" ++ (if t.month < 10 then "0" ++ toString t.month else toString t.month)

/-- The lambda of `df["profitable"] = df["contribution_margin"].apply(...)`:
`"Profitable" if x > 0 else "Loss-Making"`. -/
def profitLabel (x : ℚ) : String :=
  if x > 0 then "Profitable" else "Loss-Making"

/-- `def discount_band(d)` from the script. -/
def discount_band (d : ℚ) : String :=
  if d = 0 then "No Discount"
  else if d ≤ 5 then "Low (1-5)"
  else if d ≤ 15 then "Mid (6-15)"
  else "High (15+)"

/-- `def order_band(v)` from the script. -/
def order_band (v : ℚ) : String :=
  if v < 15 then "Low (< $15)"
  else if v < 30 then "Mid ($15-30)"
  else if v < 50 then "High ($30-50)"
  else "Premium (> $50)"

/-- A row of the enriched DataFrame: the raw columns plus every derived
column the six aggregations read. -/
structure Enriched extends Order where
  order_month : String
  contribution_margin : ℚ
  profitable : String
  discount_band : String
  order_band : String
deriving DecidableEq, Repr

/-- The feature-derivation block of the script applied to one row:
month key, contribution margin
(`commission_fee + delivery_fee - payment_processing_fee -
discounts_and_offers - refunds_chargebacks`), profitability label and
both bands. -/
def enrich (o : Order) : Enriched :=
  { o with
    order_month := monthKey o.order_ts
    contribution_margin :=
      o.commission_fee + o.delivery_fee
        - o.payment_processing_fee
        - o.discounts_and_offers
        - o.refunds_chargebacks
    profitable :=
      profitLabel (o.commission_fee + o.delivery_fee
        - o.payment_processing_fee
        - o.discounts_and_offers
        - o.refunds_chargebacks)
    discount_band := discount_band o.discounts_and_offers
    order_band := order_band o.order_value }

/-- The enriched DataFrame: the load-and-derive part of the pipeline. -/
def enrichAll (rows : List Order) : List Enriched :=
  rows.map enrich

/-- The distinct values of a grouping key, ascending: the index that
`df.groupby(key)` (default `sort=True`) produces. -/
def sortedKeys {κ : Type} [DecidableEq κ] (le : κ → κ → Prop) [DecidableRel le]
    (keys : List κ) : List κ :=
  List.insertionSort le (keys.dedup)

/-- The rows of one group: `df[key == k]`, in input order. -/
def groupRows {α κ : Type} [DecidableEq κ] (key : α → κ) (t : List α) (k : κ) : List α :=
  t.filter (fun e => key e = k)

/-- `Series.mean`: sum over length (only ever applied to non-empty groups). -/
def seriesMean (l : List ℚ) : ℚ :=
  l.sum / l.length

/-- A row of the Chart 1 summary `aov_pay` (AOV by payment method). -/
structure PayRow where
  payment_method : String
  avg_order_value : ℚ
  total_orders : Nat
deriving DecidableEq, Repr

/-- The `sort_values("avg_order_value")` ordering on `aov_pay` rows. -/
def payLE (a b : PayRow) : Prop := a.avg_order_value ≤ b.avg_order_value

instance : DecidableRel payLE :=
  fun a b => inferInstanceAs (Decidable (a.avg_order_value ≤ b.avg_order_value))

/-- Chart 1: `df.groupby("payment_method").agg(avg_order_value=mean,
total_orders=count)` then `sort_values("avg_order_value", ascending=True)`. -/
def aov_pay (t : List Enriched) : List PayRow :=
  List.insertionSort payLE
    ((sortedKeys (· ≤ ·) (t.map (·.payment_method))).map (fun k =>
      let g := groupRows (·.payment_method) t k
      ⟨k, seriesMean (g.map (·.order_value)), g.length⟩))

/-- A row of the Chart 2 summary `monthly`. -/
structure MonthRow where
  order_month : String
  total_orders : Nat
  total_gmv : ℚ
deriving DecidableEq, Repr

/-- The `sort_values("order_month")` ordering on monthly rows. -/
def monthLE (a b : MonthRow) : Prop := a.order_month ≤ b.order_month

instance : DecidableRel monthLE :=
  fun a b => inferInstanceAs (Decidable (a.order_month ≤ b.order_month))

/-- Chart 2: `df.groupby("order_month").agg(total_orders=count,
total_gmv=sum)` then `sort_values("order_month")`. -/
def monthly (t : List Enriched) : List MonthRow :=
  List.insertionSort monthLE
    ((sortedKeys (· ≤ ·) (t.map (·.order_month))).map (fun k =>
      let g := groupRows (·.order_month) t k
      ⟨k, g.length, (g.map (·.order_value)).sum⟩))

/-- A row of the Chart 3 summary `profit_summary`. -/
structure ProfitRow where
  profitable : String
  order_count : Nat
  total_margin : ℚ
  avg_order_value : ℚ
deriving DecidableEq, Repr

/-- Chart 3: `df.groupby("profitable").agg(order_count=count,
total_margin=sum, avg_order_value=mean)`. -/
def profit_summary (t : List Enriched) : List ProfitRow :=
  (sortedKeys (· ≤ ·) (t.map (·.profitable))).map (fun k =>
    let g := groupRows (·.profitable) t k
    ⟨k, g.length, (g.map (·.contribution_margin)).sum,
      seriesMean (g.map (·.order_value))⟩)

/-- A row of the Chart 4 summary `disc_impact`. -/
structure DiscRow where
  discount_band : String
  avg_order_value : ℚ
  avg_contribution : ℚ
  order_count : Nat
deriving DecidableEq, Repr

/-- `order_map = {"No Discount":0, "Low (1-5)":1, "Mid (6-15)":2,
"High (15+)":3}`; `.map(order_map)` yields NaN on any other label. -/
def order_map (s : String) : Option Nat :=
  if s = "No Discount" then some 0
  else if s = "Low (1-5)" then some 1
  else if s = "Mid (6-15)" then some 2
  else if s = "High (15+)" then some 3
  else none

/-- The value of the added `"sort"` column of a `disc_impact` row
(`4` plays NaN, which `sort_values` places last). -/
def discSortKey (r : DiscRow) : Nat := (order_map r.discount_band).getD 4

/-- The `sort_values("sort")` ordering on `disc_impact` rows. -/
def discIdxLE (a b : DiscRow) : Prop := discSortKey a ≤ discSortKey b

instance : DecidableRel discIdxLE :=
  fun a b => inferInstanceAs (Decidable (discSortKey a ≤ discSortKey b))

instance : IsTotal DiscRow discIdxLE := ⟨fun a b => Nat.le_total (discSortKey a) (discSortKey b)⟩

instance : IsTrans DiscRow discIdxLE := ⟨fun _ _ _ => Nat.le_trans⟩

/-- Chart 4: `df.groupby("discount_band").agg(avg_order_value=mean,
avg_contribution=mean, order_count=count)` then the fixed-order sort via
the mapped `"sort"` column. -/
def disc_impact (t : List Enriched) : List DiscRow :=
  List.insertionSort discIdxLE
    ((sortedKeys (· ≤ ·) (t.map (·.discount_band))).map (fun k =>
      let g := groupRows (·.discount_band) t k
      ⟨k, seriesMean (g.map (·.order_value)),
        seriesMean (g.map (·.contribution_margin)), g.length⟩))

/-- The reducer cells of one Chart 5 row. -/
structure BandCells where
  delivery_fee_pct : ℚ
  avg_margin : ℚ
  count : Nat
deriving DecidableEq, Repr

/-- `band_order = ["Low (< $15)", "Mid ($15-30)", "High ($30-50)",
"Premium (> $50)"]`. -/
def band_order : List String :=
  ["Low (< $15)", "Mid ($15-30)", "High ($30-50)", "Premium (> $50)"]

/-- Chart 5, grouping step: `df.groupby("order_band").agg(...)` with
`delivery_fee_pct` the group mean of per-row `delivery_fee/order_value`
times 100. -/
def bandTable (t : List Enriched) : List (String × BandCells) :=
  (sortedKeys (· ≤ ·) (t.map (·.order_band))).map (fun k =>
    let g := groupRows (·.order_band) t k
    (k, ⟨seriesMean (g.map (fun e => e.delivery_fee / e.order_value)) * 100,
      seriesMean (g.map (·.contribution_margin)), g.length⟩))

/-- Chart 5: the grouped table `.reindex(band_order)`; an absent band
yields a row of NaN cells, embedded as `none`. -/
def band_data (t : List Enriched) : List (String × Option BandCells) :=
  band_order.map (fun k => (k, ((bandTable t).find? (fun p => p.1 == k)).map Prod.snd))

/-- A row of the Chart 6 grouped table `rest_refund`. -/
structure RestRow where
  restaurant_id : Nat
  total_orders : Nat
  refund_orders : Nat
  total_refund : ℚ
  refund_rate : ℚ
deriving DecidableEq, Repr

/-- Chart 6, grouping step: `df.groupby("restaurant_id").agg(...)` plus
the derived `refund_rate = refund_orders / total_orders * 100`. -/
def rest_refund (t : List Enriched) : List RestRow :=
  (sortedKeys (· ≤ ·) (t.map (·.restaurant_id))).map (fun k =>
    let g := groupRows (·.restaurant_id) t k
    let ro := (g.filter (fun e => 0 < e.refunds_chargebacks)).length
    ⟨k, g.length, ro, (g.map (·.refunds_chargebacks)).sum,
      (ro : ℚ) / (g.length : ℚ) * 100⟩)

/-- The descending-by-`refund_rate` ordering used by `nlargest`. -/
def rateGE (a b : RestRow) : Prop := b.refund_rate ≤ a.refund_rate

instance : DecidableRel rateGE :=
  fun a b => inferInstanceAs (Decidable (b.refund_rate ≤ a.refund_rate))

instance : IsTotal RestRow rateGE := ⟨fun a b => le_total b.refund_rate a.refund_rate⟩

instance : IsTrans RestRow rateGE := ⟨fun _ _ _ h1 h2 => le_trans h2 h1⟩

/-- The selection step of Chart 6:
`rest_refund[rest_refund["total_orders"] >= 5].nlargest(10, "refund_rate")`
(`keep='first'`: a stable descending sort then the first 10). -/
def nlargestRefund (tbl : List RestRow) : List RestRow :=
  (List.insertionSort rateGE (tbl.filter (fun g => 5 ≤ g.total_orders))).take 10

/-- Chart 6: `top_refund`. -/
def top_refund (t : List Enriched) : List RestRow :=
  nlargestRefund (rest_refund t)

/-- The six summary tables of one run: the whole
load → derive → aggregate pipeline on an in-memory input. -/
def pipeline (rows : List Order) :
    List PayRow × List MonthRow × List ProfitRow × List DiscRow ×
      List (String × Option BandCells) × List RestRow :=
  let t := enrichAll rows
  (aov_pay t, monthly t, profit_summary t, disc_impact t, band_data t, top_refund t)

/-- The spec's worked example order A:
commission=5, delivery=3, processing=1, discount=0, refund=0. -/
def orderA : Order := ⟨1, 1, "Card", ⟨2024, 2, 3, 10, 0⟩, 20, 5, 3, 1, 0, 0⟩

/-- The spec's worked example order B:
commission=2, delivery=1, processing=0.5, discount=10, refund=0. -/
def orderB : Order := ⟨2, 2, "Cash", ⟨2024, 2, 7, 11, 0⟩, 30, 2, 1, 1/2, 10, 0⟩

/-- A one-restaurant order carrying a positive refund. -/
def refundedOrder : Order := ⟨3, 1, "Card", ⟨2024, 3, 1, 9, 0⟩, 25, 5, 3, 1, 0, 2⟩

/-- An order of a second restaurant with no refund. -/
def cleanOrder : Order := ⟨4, 2, "Card", ⟨2024, 3, 2, 9, 0⟩, 25, 5, 3, 1, 0, 0⟩

theorem profitLabel_spec (x : ℚ) :
    (profitLabel x = "Profitable" ↔ 0 < x) ∧ (x = 0 → profitLabel x = "Loss-Making") := by
  unfold profitLabel
  split_ifs with h
  · exact ⟨⟨fun _ => h, fun _ => rfl⟩, fun h0 => absurd h0 (ne_of_gt h)⟩
  · exact ⟨⟨fun hs => absurd hs (by decide), fun hx => absurd hx h⟩, fun _ => rfl⟩

/-- C2: for every row of the enriched table, the `profitable` column is
`"Profitable"` iff `contribution_margin > 0`, and a row with margin
exactly `0` is labelled `"Loss-Making"`. -/
theorem C2_profitable_iff_positive_margin (rows : List Order) (e : Enriched)
    (he : e ∈ enrichAll rows) :
    (e.profitable = "Profitable" ↔ 0 < e.contribution_margin) ∧
    (e.contribution_margin = 0 → e.profitable = "Loss-Making") := by
  rcases List.mem_map.mp he with ⟨o, _, rfl⟩
  exact profitLabel_spec _

/-- C2 witness: the claim evaluated on the enrichment of a concrete order
with margin `-7.5`. -/
theorem C2_witness :
    ((enrich orderB).profitable = "Profitable" ↔ 0 < (enrich orderB).contribution_margin) ∧
    ((enrich orderB).contribution_margin = 0 → (enrich orderB).profitable = "Loss-Making") :=
  C2_profitable_iff_positive_margin [orderB] (enrich orderB) (by simp [enrichAll])

/-- C4: for non-negative discounts, `discount_band` is the partition
`{0} / (0,5] / (5,15] / (15,∞)` onto the four band labels: each label is
taken exactly on its stated range, so the bands are non-overlapping and
cover all non-negative values. -/
theorem C4_discount_band_partition (d : ℚ) (hd : 0 ≤ d) :
    (discount_band d = "No Discount" ↔ d = 0) ∧
    (discount_band d = "Low (1-5)" ↔ 0 < d ∧ d ≤ 5) ∧
    (discount_band d = "Mid (6-15)" ↔ 5 < d ∧ d ≤ 15) ∧
    (discount_band d = "High (15+)" ↔ 15 < d) ∧
    discount_band d ∈ ["No Discount", "Low (1-5)", "Mid (6-15)", "High (15+)"] := by
  unfold discount_band
  split_ifs with h1 h2 h3
  · subst h1
    refine ⟨by simp, ?_, ?_, ?_, by decide⟩
    · exact iff_of_false (by decide) (by norm_num)
    · exact iff_of_false (by decide) (by norm_num)
    · exact iff_of_false (by decide) (by norm_num)
  · refine ⟨iff_of_false (by decide) h1,
      iff_of_true rfl ⟨hd.lt_of_ne (Ne.symm h1), h2⟩, ?_, ?_, by decide⟩
    · exact iff_of_false (by decide) (fun hc => absurd hc.1 (not_lt.mpr h2))
    · exact iff_of_false (by decide) (not_lt.mpr (h2.trans (by norm_num)))
  · have h5 : 5 < d := not_le.mp h2
    refine ⟨iff_of_false (by decide) h1, ?_,
      iff_of_true rfl ⟨h5, h3⟩, ?_, by decide⟩
    · exact iff_of_false (by decide) (fun hc => absurd hc.2 h2)
    · exact iff_of_false (by decide) (not_lt.mpr (h3.trans (by norm_num)))
  · have h15 : 15 < d := not_le.mp h3
    refine ⟨iff_of_false (by decide) h1, ?_, ?_,
      iff_of_true rfl h15, by decide⟩
    · exact iff_of_false (by decide) (fun hc => absurd hc.2 (not_le.mpr (by linarith)))
    · exact iff_of_false (by decide) (fun hc => absurd hc.2 h3)

/-- C4 witness: the partition applied at the concrete discount `3`. -/
theorem C4_witness :
    (discount_band 3 = "No Discount" ↔ (3 : ℚ) = 0) ∧
    (discount_band 3 = "Low (1-5)" ↔ (0 : ℚ) < 3 ∧ (3 : ℚ) ≤ 5) ∧
    (discount_band 3 = "Mid (6-15)" ↔ (5 : ℚ) < 3 ∧ (3 : ℚ) ≤ 15) ∧
    (discount_band 3 = "High (15+)" ↔ (15 : ℚ) < 3) ∧
    discount_band 3 ∈ ["No Discount", "Low (1-5)", "Mid (6-15)", "High (15+)"] :=
  C4_discount_band_partition 3 (by norm_num)

/-- C5: for non-negative order values, `order_band` is the partition
`[0,15) / [15,30) / [30,50) / [50,∞)` onto the four band labels; in
particular `50` falls in the Premium band, not the High band. -/
theorem C5_order_band_partition (v : ℚ) (hv : 0 ≤ v) :
    (order_band v = "Low (< $15)" ↔ v < 15) ∧
    (order_band v = "Mid ($15-30)" ↔ 15 ≤ v ∧ v < 30) ∧
    (order_band v = "High ($30-50)" ↔ 30 ≤ v ∧ v < 50) ∧
    (order_band v = "Premium (> $50)" ↔ 50 ≤ v) := by
  clear hv
  unfold order_band
  split_ifs with h1 h2 h3
  · refine ⟨iff_of_true rfl h1, ?_, ?_, ?_⟩
    · exact iff_of_false (by decide) (fun hc => absurd hc.1 (not_le.mpr h1))
    · exact iff_of_false (by decide)
        (fun hc => absurd hc.1 (not_le.mpr (h1.trans (by norm_num))))
    · exact iff_of_false (by decide)
        (fun hc => absurd hc (not_le.mpr (h1.trans (by norm_num))))
  · refine ⟨iff_of_false (by decide) h1,
      iff_of_true rfl ⟨not_lt.mp h1, h2⟩, ?_, ?_⟩
    · exact iff_of_false (by decide) (fun hc => absurd hc.1 (not_le.mpr h2))
    · exact iff_of_false (by decide)
        (fun hc => absurd h2 (not_lt.mpr (le_trans (by norm_num) hc)))
  · refine ⟨iff_of_false (by decide) h1, ?_,
      iff_of_true rfl ⟨not_lt.mp h2, h3⟩, ?_⟩
    · exact iff_of_false (by decide) (fun hc => absurd hc.2 h2)
    · exact iff_of_false (by decide) (fun hc => absurd h3 (not_lt.mpr hc))
  · refine ⟨iff_of_false (by decide) h1, ?_, ?_,
      iff_of_true rfl (not_lt.mp h3)⟩
    · exact iff_of_false (by decide) (fun hc => absurd hc.2 h2)
    · exact iff_of_false (by decide) (fun hc => absurd hc.2 h3)

/-- C5 witness: the partition applied at the boundary order value `50`,
which lands in `"Premium (> $50)"`. -/
theorem C5_witness :
    (order_band 50 = "Low (< $15)" ↔ (50 : ℚ) < 15) ∧
    (order_band 50 = "Mid ($15-30)" ↔ (15 : ℚ) ≤ 50 ∧ (50 : ℚ) < 30) ∧
    (order_band 50 = "High ($30-50)" ↔ (30 : ℚ) ≤ 50 ∧ (50 : ℚ) < 50) ∧
    (order_band 50 = "Premium (> $50)" ↔ (50 : ℚ) ≤ 50) :=
  C5_order_band_partition 50 (by norm_num)

/-- C10: both band classifiers are total over all rational inputs; every
negative discount maps to `"Low (1-5)"`, every negative order value maps
to `"Low (< $15)"`, and every input lands in one of the four respective
band labels. -/
theorem C10_bands_total_on_negatives :
    (∀ d : ℚ, d < 0 → discount_band d = "Low (1-5)") ∧
    (∀ v : ℚ, v < 0 → order_band v = "Low (< $15)") ∧
    (∀ x : ℚ, discount_band x ∈ ["No Discount", "Low (1-5)", "Mid (6-15)", "High (15+)"] ∧
      order_band x ∈ band_order) := by
  refine ⟨fun d hd => ?_, fun v hv => ?_, fun x => ⟨?_, ?_⟩⟩
  · unfold discount_band
    rw [if_neg (ne_of_lt hd), if_pos (hd.le.trans (by norm_num))]
  · unfold order_band
    rw [if_pos (hv.trans (by norm_num))]
  · unfold discount_band
    split_ifs <;> decide
  · unfold order_band
    split_ifs <;> decide

/-- C10 witness: the negative inputs `-3` and `-1` evaluated. -/
theorem C10_witness :
    discount_band (-3) = "Low (1-5)" ∧ order_band (-1) = "Low (< $15)" :=
  ⟨C10_bands_total_on_negatives.1 (-3) (by norm_num),
    C10_bands_total_on_negatives.2.1 (-1) (by norm_num)⟩

/-- C9: the load-derive-aggregate pipeline is deterministic: any two
runs on the same input rows produce identical six summary tables. The
embedded pipeline is a pure function of its input list; no step reads
anything but the rows. -/
theorem C9_pipeline_deterministic (rows : List Order)
    (run1 run2 : List PayRow × List MonthRow × List ProfitRow × List DiscRow ×
      List (String × Option BandCells) × List RestRow)
    (h1 : run1 = pipeline rows) (h2 : run2 = pipeline rows) : run1 = run2 :=
  h1.trans h2.symm

/-- C9 witness: two runs on the concrete input `[orderA]` agree. -/
theorem C9_witness : pipeline [orderA] = pipeline [orderA] :=
  C9_pipeline_deterministic [orderA] (pipeline [orderA]) (pipeline [orderA]) rfl rfl

/-- C1 (counterexample): the spec's example order A (commission=5,
delivery=3, processing=1, discount=0, refund=0) has contribution margin
`5 + 3 - 1 - 0 - 0 = 7` in the enriched table, not `8` as the claim's
example asserts. -/
theorem C1_counterexample :
    (enrich orderA).contribution_margin = 7 ∧
    (enrich orderA).contribution_margin ≠ 8 := by
  constructor <;> norm_num [enrich, orderA]

/-- C1 (amended): for every row of the enriched table,
`contribution_margin` equals `commission_fee + delivery_fee -
payment_processing_fee - discounts_and_offers - refunds_chargebacks`;
on the spec's example orders the margins are `7` (order A) and `-7.5`
(order B). -/
theorem C1_margin_formula :
    (∀ rows : List Order, ∀ e ∈ enrichAll rows,
      e.contribution_margin =
        e.commission_fee + e.delivery_fee - e.payment_processing_fee
          - e.discounts_and_offers - e.refunds_chargebacks) ∧
    (enrich orderA).contribution_margin = 7 ∧
    (enrich orderB).contribution_margin = -(15 / 2) := by
  refine ⟨fun rows e he => ?_, ?_, ?_⟩
  · rcases List.mem_map.mp he with ⟨o, _, rfl⟩
    rfl
  · norm_num [enrich, orderA]
  · norm_num [enrich, orderB]

/-- C1 witness: the margin formula evaluated on the enrichment of the
concrete order A. -/
theorem C1_witness :
    (enrich orderA).contribution_margin =
      (enrich orderA).commission_fee + (enrich orderA).delivery_fee
        - (enrich orderA).payment_processing_fee
        - (enrich orderA).discounts_and_offers
        - (enrich orderA).refunds_chargebacks :=
  C1_margin_formula.1 [orderA] (enrich orderA) (by simp [enrichAll])

theorem mem_sortedKeys {κ : Type} [DecidableEq κ] (le : κ → κ → Prop) [DecidableRel le]
    (keys : List κ) (a : κ) : a ∈ sortedKeys le keys ↔ a ∈ keys := by
  unfold sortedKeys
  rw [(List.perm_insertionSort le keys.dedup).mem_iff]
  exact List.mem_dedup

theorem nodup_sortedKeys {κ : Type} [DecidableEq κ] (le : κ → κ → Prop) [DecidableRel le]
    (keys : List κ) : (sortedKeys le keys).Nodup :=
  ((List.perm_insertionSort le keys.dedup).nodup_iff).mpr keys.nodup_dedup

theorem length_sortedKeys {κ : Type} [DecidableEq κ] (le : κ → κ → Prop) [DecidableRel le]
    (keys : List κ) : (sortedKeys le keys).length = keys.dedup.length :=
  (List.perm_insertionSort le keys.dedup).length_eq

theorem rest_refund_mem (t : List Enriched) (g : RestRow) (hg : g ∈ rest_refund t) :
    g.total_orders = (groupRows (·.restaurant_id) t g.restaurant_id).length ∧
    g.refund_orders = ((groupRows (·.restaurant_id) t g.restaurant_id).filter
        (fun e => 0 < e.refunds_chargebacks)).length ∧
    g.refund_rate = (g.refund_orders : ℚ) / (g.total_orders : ℚ) * 100 := by
  unfold rest_refund at hg
  rcases List.mem_map.mp hg with ⟨k, _, rfl⟩
  exact ⟨rfl, rfl, rfl⟩

theorem rest_refund_example :
    rest_refund (enrichAll [refundedOrder, cleanOrder]) =
      [⟨1, 1, 1, 2, 100⟩, ⟨2, 1, 0, 0, 0⟩] := by
  norm_num [rest_refund, sortedKeys, groupRows, enrichAll, enrich, refundedOrder, cleanOrder,
    seriesMean, List.dedup_cons_of_mem, List.dedup_cons_of_not_mem]

/-- C7: the custom rate reducers are per-group. Every `rest_refund` row
has `refund_rate` equal to 100 times the fraction of that restaurant's
own rows carrying a positive refund; every grouped `bandTable` row has
`delivery_fee_pct` equal to 100 times the mean over that band's own rows
of per-row `delivery_fee / order_value`; and on a two-restaurant input
the two rates are 100 and 0, not a shared global figure. -/
theorem C7_rates_per_group :
    (∀ t : List Enriched, ∀ g ∈ rest_refund t,
      g.refund_rate =
        (((groupRows (·.restaurant_id) t g.restaurant_id).filter
            (fun e => 0 < e.refunds_chargebacks)).length : ℚ) /
          ((groupRows (·.restaurant_id) t g.restaurant_id).length : ℚ) * 100) ∧
    (∀ t : List Enriched, ∀ p ∈ bandTable t,
      p.2.delivery_fee_pct =
        seriesMean ((groupRows (·.order_band) t p.1).map
          (fun e => e.delivery_fee / e.order_value)) * 100) ∧
    (rest_refund (enrichAll [refundedOrder, cleanOrder])).map RestRow.refund_rate = [100, 0] := by
  refine ⟨fun t g hg => ?_, fun t p hp => ?_, by rw [rest_refund_example]; rfl⟩
  · obtain ⟨h1, h2, h3⟩ := rest_refund_mem t g hg
    rw [h3, h2, h1]
  · unfold bandTable at hp
    rcases List.mem_map.mp hp with ⟨k, _, rfl⟩
    rfl

/-- C7 witness: the per-group refund rate formula evaluated on the row
of restaurant 1 in a concrete two-restaurant table. -/
theorem C7_witness :
    (⟨1, 1, 1, 2, 100⟩ : RestRow).refund_rate =
      (((groupRows (·.restaurant_id) (enrichAll [refundedOrder, cleanOrder])
            (⟨1, 1, 1, 2, 100⟩ : RestRow).restaurant_id).filter
          (fun e => 0 < e.refunds_chargebacks)).length : ℚ) /
        ((groupRows (·.restaurant_id) (enrichAll [refundedOrder, cleanOrder])
            (⟨1, 1, 1, 2, 100⟩ : RestRow).restaurant_id).length : ℚ) * 100 :=
  C7_rates_per_group.1 (enrichAll [refundedOrder, cleanOrder]) ⟨1, 1, 1, 2, 100⟩
    (by rw [rest_refund_example]; exact List.mem_cons_self _ _)

theorem monthly_pair (e1 e2 : Enriched) (h : e2.order_month = e1.order_month) :
    monthly [e1, e2] = [⟨e1.order_month, 2, e1.order_value + e2.order_value⟩] := by
  have hd : ([e1.order_month, e1.order_month] : List String).dedup = [e1.order_month] := by
    rw [List.dedup_cons_of_mem (by simp), List.dedup_cons_of_not_mem (by simp), List.dedup_nil]
  simp [monthly, sortedKeys, groupRows, h, hd]

/-- C8: two input orders whose timestamps fall in the same calendar
month group into a single monthly row with `total_orders = 2` and
`total_gmv` the sum of the two order values; in general the monthly
table has one row per distinct `order_month` value. -/
theorem C8_monthly_grouping :
    (∀ o1 o2 : Order, o1.order_ts.year = o2.order_ts.year →
      o1.order_ts.month = o2.order_ts.month →
      monthly (enrichAll [o1, o2]) =
        [⟨monthKey o1.order_ts, 2, o1.order_value + o2.order_value⟩]) ∧
    (∀ rows : List Order,
      (monthly (enrichAll rows)).length =
        ((enrichAll rows).map (·.order_month)).dedup.length) := by
  constructor
  · intro o1 o2 hy hm
    have hk : (enrich o2).order_month = (enrich o1).order_month := by
      show monthKey o2.order_ts = monthKey o1.order_ts
      unfold monthKey
      rw [← hy, ← hm]
    exact monthly_pair (enrich o1) (enrich o2) hk
  · intro rows
    unfold monthly
    rw [(List.perm_insertionSort monthLE _).length_eq, List.length_map]
    exact length_sortedKeys _ _

/-- C8 witness: the spec's two same-month example orders produce the
single row for `"2024-02"` with count 2 and GMV `20 + 30`. -/
theorem C8_witness :
    monthly (enrichAll [orderA, orderB]) =
      [⟨monthKey orderA.order_ts, 2, orderA.order_value + orderB.order_value⟩] :=
  C8_monthly_grouping.1 orderA orderB rfl rfl

theorem bandTable_mem_fst (t : List Enriched) (x : String × BandCells) (hx : x ∈ bandTable t) :
    ∃ e ∈ t, e.order_band = x.1 := by
  unfold bandTable at hx
  rcases List.mem_map.mp hx with ⟨k, hk, rfl⟩
  rcases List.mem_map.mp ((mem_sortedKeys _ _ _).mp hk) with ⟨e, he, hek⟩
  exact ⟨e, he, hek⟩

theorem disc_impact_keys_perm (t : List Enriched) :
    List.Perm ((disc_impact t).map DiscRow.discount_band) ((t.map (·.discount_band)).dedup) := by
  unfold disc_impact
  refine ((List.perm_insertionSort discIdxLE _).map DiscRow.discount_band).trans ?_
  simp only [List.map_map, Function.comp_def]
  simp only [List.map_id']
  unfold sortedKeys
  exact List.perm_insertionSort _ _

/-- C3 (amended): the order-band aggregation reindexes onto the fixed
four-category ordering, so it always has exactly four rows in fixed
order and an empty band appears with empty (NaN) reducer cells; the
discount-band aggregation instead emits exactly one row per band present
in the input, arranged in the fixed category order, silently dropping a
band with no matching rows. -/
theorem C3_band_rows (rows : List Order) :
    (band_data (enrichAll rows)).length = 4 ∧
    (band_data (enrichAll rows)).map Prod.fst = band_order ∧
    (∀ p ∈ band_data (enrichAll rows),
      (∀ e ∈ enrichAll rows, e.order_band ≠ p.1) → p.2 = none) ∧
    ((disc_impact (enrichAll rows)).map DiscRow.discount_band).Nodup ∧
    (∀ b, b ∈ (disc_impact (enrichAll rows)).map DiscRow.discount_band ↔
      ∃ e ∈ enrichAll rows, e.discount_band = b) ∧
    List.Sorted discIdxLE (disc_impact (enrichAll rows)) ∧
    (disc_impact (enrichAll rows)).length =
      ((enrichAll rows).map (·.discount_band)).dedup.length := by
  refine ⟨by simp [band_data, band_order],
    by simp [band_data, List.map_map, Function.comp_def], ?_, ?_, ?_, ?_, ?_⟩
  · intro p hp habsent
    unfold band_data at hp
    rcases List.mem_map.mp hp with ⟨k, _, rfl⟩
    have hnone : (bandTable (enrichAll rows)).find? (fun q => q.1 == k) = none := by
      rw [List.find?_eq_none]
      intro x hx
      rcases bandTable_mem_fst _ x hx with ⟨e, he, hex⟩
      simp only [beq_iff_eq]
      intro hxk
      exact habsent e he (hex.trans hxk)
    simp [hnone]
  · exact ((disc_impact_keys_perm _).nodup_iff).mpr (List.nodup_dedup _)
  · intro b
    rw [(disc_impact_keys_perm _).mem_iff, List.mem_dedup, List.mem_map]
  · unfold disc_impact
    exact List.sorted_insertionSort discIdxLE _
  · rw [← List.length_map (disc_impact (enrichAll rows)) DiscRow.discount_band,
      (disc_impact_keys_perm _).length_eq]

/-- C3 (counterexample): on the one-order input `[orderA]` (discount 0,
so only the "No Discount" band occurs) the discount-band aggregation
emits one row, not four: unlike the order-band aggregation it never
reindexes onto the fixed four-band ordering, so empty bands are dropped. -/
theorem C3_counterexample :
    (disc_impact (enrichAll [orderA])).length = 1 ∧
    ¬ (disc_impact (enrichAll [orderA])).length = 4 := by
  have h : (disc_impact (enrichAll [orderA])).length = 1 := by decide
  exact ⟨h, by omega⟩

/-- C3 witness: on the concrete input `[orderA]` the order-band table
has its four fixed rows, and its row for the absent band
`"Low (< $15)"` carries empty reducers. -/
theorem C3_witness :
    (band_data (enrichAll [orderA])).length = 4 ∧
    (("Low (< $15)", (none : Option BandCells)) : String × Option BandCells).2 = none :=
  ⟨(C3_band_rows [orderA]).1,
    (C3_band_rows [orderA]).2.2.1 ("Low (< $15)", none) (by decide) (by decide)⟩

theorem filter_rate_orderedInsert (q : ℚ) (a : RestRow) (l : List RestRow) :
    (List.orderedInsert rateGE a l).filter (fun g => g.refund_rate = q) =
      if a.refund_rate = q then a :: l.filter (fun g => g.refund_rate = q)
      else l.filter (fun g => g.refund_rate = q) := by
  induction l with
  | nil => by_cases hq : a.refund_rate = q <;> simp [hq]
  | cons b l ih =>
    simp only [List.orderedInsert]
    by_cases hab : rateGE a b
    · rw [if_pos hab]
      by_cases hq : a.refund_rate = q <;> simp [List.filter_cons, hq]
    · rw [if_neg hab]
      have hab' : ¬ (b.refund_rate ≤ a.refund_rate) := hab
      have hlt : a.refund_rate < b.refund_rate := not_le.mp hab'
      by_cases hq : a.refund_rate = q
      · have hbq : b.refund_rate ≠ q := by rw [← hq]; exact ne_of_gt hlt
        simp [List.filter_cons, ih, hq, hbq]
      · simp [List.filter_cons, ih, hq]

theorem filter_rate_insertionSort (q : ℚ) (l : List RestRow) :
    (List.insertionSort rateGE l).filter (fun g => g.refund_rate = q) =
      l.filter (fun g => g.refund_rate = q) := by
  induction l with
  | nil => rfl
  | cons a l ih =>
    simp only [List.insertionSort]
    rw [filter_rate_orderedInsert]
    by_cases hq : a.refund_rate = q <;> simp [List.filter_cons, hq, ih]

theorem take_drop_pairwise {α : Type} {r : α → α → Prop} {l : List α} (h : l.Pairwise r)
    (n : Nat) {x y : α} (hx : x ∈ l.take n) (hy : y ∈ l.drop n) : r x y := by
  rw [← List.take_append_drop n l] at h
  exact (List.pairwise_append.mp h).2.2 x hx y hy

/-- C6: the top-restaurants-by-refund-rate selection. Every selected
group has at least 5 total orders; at most 10 rows are kept; the output
is sorted by descending refund rate; any qualifying group left out has a
rate no larger than every kept one; ties are broken stably with respect
to the grouped `rest_refund` table (the order the groups are encountered
in, namely ascending restaurant id); and on a three-group table with
totals 10, 4, 6 the total-4 group is excluded and the total-10 group
ranks above the total-6 group whenever its rate is at least as large. -/
theorem C6_top_refund_ranking :
    (∀ t : List Enriched, ∀ g ∈ top_refund t, 5 ≤ g.total_orders) ∧
    (∀ t : List Enriched, (top_refund t).length ≤ 10) ∧
    (∀ t : List Enriched, List.Sorted rateGE (top_refund t)) ∧
    (∀ t : List Enriched, ∀ g ∈ top_refund t,
      ∀ g2 ∈ (rest_refund t).filter (fun g => 5 ≤ g.total_orders),
        g2 ∉ top_refund t → g2.refund_rate ≤ g.refund_rate) ∧
    (∀ t : List Enriched, ∀ q : ℚ,
      (List.insertionSort rateGE
          ((rest_refund t).filter (fun g => 5 ≤ g.total_orders))).filter
            (fun g => g.refund_rate = q) =
        ((rest_refund t).filter (fun g => 5 ≤ g.total_orders)).filter
          (fun g => g.refund_rate = q) ∧
      List.Sublist ((top_refund t).filter (fun g => g.refund_rate = q))
        (((rest_refund t).filter (fun g => 5 ≤ g.total_orders)).filter
          (fun g => g.refund_rate = q))) ∧
    (∀ r1 r2 r3 : RestRow, r1.total_orders = 10 → r2.total_orders = 4 →
      r3.total_orders = 6 → r3.refund_rate ≤ r1.refund_rate →
      nlargestRefund [r1, r2, r3] = [r1, r3]) := by
  refine ⟨?_, ?_, ?_, ?_, ?_, ?_⟩
  · intro t g hg
    have h1 : g ∈ List.insertionSort rateGE
        ((rest_refund t).filter (fun g => 5 ≤ g.total_orders)) :=
      (List.take_sublist 10 _).subset hg
    have h2 := (List.perm_insertionSort rateGE _).mem_iff.mp h1
    simpa using (List.mem_filter.mp h2).2
  · intro t
    exact List.length_take_le 10 _
  · intro t
    exact List.Pairwise.sublist (List.take_sublist 10 _)
      (List.sorted_insertionSort rateGE _)
  · intro t g hg g2 hg2 hng2
    have hsort := List.sorted_insertionSort rateGE
      ((rest_refund t).filter (fun g => 5 ≤ g.total_orders))
    have hmem : g2 ∈ List.insertionSort rateGE
        ((rest_refund t).filter (fun g => 5 ≤ g.total_orders)) :=
      (List.perm_insertionSort rateGE _).mem_iff.mpr hg2
    rw [← List.take_append_drop 10 (List.insertionSort rateGE
      ((rest_refund t).filter (fun g => 5 ≤ g.total_orders)))] at hmem
    rcases List.mem_append.mp hmem with htk | hdr
    · exact absurd htk hng2
    · exact take_drop_pairwise hsort 10 hg hdr
  · intro t q
    constructor
    · exact filter_rate_insertionSort q _
    · have hsub := (List.take_sublist 10 (List.insertionSort rateGE
        ((rest_refund t).filter (fun g => 5 ≤ g.total_orders)))).filter
          (fun g => decide (g.refund_rate = q))
      rwa [filter_rate_insertionSort] at hsub
  · intro r1 r2 r3 h1 h2 h3 hle
    have hab : rateGE r1 r3 := hle
    simp [nlargestRefund, List.filter_cons, h1, h2, h3, List.insertionSort,
      List.orderedInsert, if_pos hab]

/-- C6 witness: the claim's example table — R1(total=10, rate=30%),
R2(total=4, rate=100%), R3(total=6, rate=20%) — ranked: R2 is excluded
and R1 ranks above R3. -/
theorem C6_witness :
    nlargestRefund [⟨1, 10, 3, 0, 30⟩, ⟨2, 4, 4, 0, 100⟩, ⟨3, 6, 1, 0, 20⟩] =
      [⟨1, 10, 3, 0, 30⟩, ⟨3, 6, 1, 0, 20⟩] :=
  C6_top_refund_ranking.2.2.2.2.2 ⟨1, 10, 3, 0, 30⟩ ⟨2, 4, 4, 0, 100⟩ ⟨3, 6, 1, 0, 20⟩
    rfl rfl rfl (by norm_num)
